import Mathlib

/-!
Verification of `src/mocklibsecret/secret.c` (SUSE/open-build-service-connector).

The C file implements a mock of the libsecret API backed by a GLib `GKeyFile`
INI file at `$HOME/passwords.ini`.  We embed the relevant GLib `GKeyFile`
operations as operations on association lists (group name to list of
(key, value) pairs, in file order) and the four API entry points
(`secret_password_store_sync`, `secret_password_lookup_sync`,
`secret_password_clear_sync`, `secret_service_search_sync`) as pure functions
of the environment (`HOME`) and the current file contents.

Modelling conventions:
- The on-disk file is `Option GKeyFile`: `none` means the file does not exist,
  `some kf` means the file exists and parses to `kf`.  Malformed files and I/O
  failures of `g_key_file_save_to_file` are not modelled (no claim needs them);
  a reached save always succeeds.
- Each error that the C code can place in the caller's `GError **` out
  parameter is a constructor of `GErr`.
- In `open_ini_file` and `init` the C code ignores the `gboolean` returned by
  `get_ini_location`; when `HOME` is unset it then uses the uninitialized
  `ini_path` pointer (undefined behaviour).  This is modelled by the
  distinguished result `GErr.ubUninitPath`.
- The variadic argument validation of `label_from_va_args` is embedded via the
  `VaArgs` structure holding the five variadic slots read by the C code.
-/

/-- One INI group body: the `account = secret` lines, in file order. -/
abbrev GKeyGroup := List (String × String)

/-- A parsed key file: `[service]` sections with their bodies, in file order. -/
abbrev GKeyFile := List (String × GKeyGroup)

/-- The errors the C code can store into the caller's `GError **`. -/
inductive GErr where
  /-- `get_ini_location`: environment variable HOME not set. -/
  | homeNotSet
  /-- `g_key_file_load_from_file`: `G_FILE_ERROR_NOENT`, the file is absent. -/
  | fileNoent
  /-- `G_KEY_FILE_ERROR_GROUP_NOT_FOUND`. -/
  | groupNotFound
  /-- `G_KEY_FILE_ERROR_KEY_NOT_FOUND`. -/
  | keyNotFound
  /-- `label_from_va_args`: invalid first parameter (expected "service"). -/
  | badFirstParam
  /-- `label_from_va_args`: invalid third parameter (expected "account"). -/
  | badThirdParam
  /-- `label_from_va_args`: invalid last parameter, should be NULL. -/
  | badLastParam
  /-- `secret_service_search_sync`: got wrong flags from keytar. -/
  | badFlags
  /-- `secret_service_search_sync`: no "service" key in the attributes table. -/
  | noServiceName
  /-- Marker for the undefined behaviour reached when `open_ini_file` (or
  `init`) ignores a failed `get_ini_location` and goes on to use the
  uninitialized `ini_path` pointer. -/
  | ubUninitPath
  deriving DecidableEq, Repr

/-- The `G_KEY_FILE_ERROR_*_NOT_FOUND` errors: a missing key or missing group,
as opposed to a genuine failure. -/
def GErr.isNotFound : GErr → Bool
  | .groupNotFound => true
  | .keyNotFound => true
  | _ => false

/-- Find the body of group `g` (first section with that name), as
`g_key_file` lookups do. -/
def findGroup (kf : GKeyFile) (g : String) : Option GKeyGroup :=
  match kf with
  | [] => none
  | (n, grp) :: rest => if n = g then some grp else findGroup rest g

/-- Find the value of key `k` in a group body (first line with that key). -/
def findKey (grp : GKeyGroup) (k : String) : Option String :=
  match grp with
  | [] => none
  | (n, v) :: rest => if n = k then some v else findKey rest k

/-- `g_key_file_get_string`: `G_KEY_FILE_ERROR_GROUP_NOT_FOUND` if the group is
absent, `G_KEY_FILE_ERROR_KEY_NOT_FOUND` if the key is absent in the group,
otherwise the stored value. -/
def g_key_file_get_string (kf : GKeyFile) (g k : String) : Except GErr String :=
  match findGroup kf g with
  | none => .error .groupNotFound
  | some grp =>
    match findKey grp k with
    | none => .error .keyNotFound
    | some v => .ok v

/-- Set key `k` to `v` in a group body: overwrite the existing line in place,
or append a new line at the end. -/
def setKeyInGroup (grp : GKeyGroup) (k v : String) : GKeyGroup :=
  match grp with
  | [] => [(k, v)]
  | (n, w) :: rest => if n = k then (k, v) :: rest else (n, w) :: setKeyInGroup rest k v

/-- `g_key_file_set_string`: update key `k` in group `g` in place, creating the
group at the end of the file if it does not exist. -/
def g_key_file_set_string (kf : GKeyFile) (g k v : String) : GKeyFile :=
  match kf with
  | [] => [(g, [(k, v)])]
  | (n, grp) :: rest =>
    if n = g then (g, setKeyInGroup grp k v) :: rest
    else (n, grp) :: g_key_file_set_string rest g k v

/-- Remove the line for key `k` from a group body. -/
def removeKeyInGroup (grp : GKeyGroup) (k : String) : GKeyGroup :=
  match grp with
  | [] => []
  | (n, v) :: rest => if n = k then rest else (n, v) :: removeKeyInGroup rest k

/-- `g_key_file_remove_key`: `G_KEY_FILE_ERROR_GROUP_NOT_FOUND` if the group is
absent, `G_KEY_FILE_ERROR_KEY_NOT_FOUND` if the key is absent in the group,
otherwise the file with the key removed (the group stays, even if emptied). -/
def g_key_file_remove_key (kf : GKeyFile) (g k : String) : Except GErr GKeyFile :=
  match kf with
  | [] => .error .groupNotFound
  | (n, grp) :: rest =>
    if n = g then
      match findKey grp k with
      | none => .error .keyNotFound
      | some _ => .ok ((n, removeKeyInGroup grp k) :: rest)
    else
      match g_key_file_remove_key rest g k with
      | .error e => .error e
      | .ok rest' => .ok ((n, grp) :: rest')

/-- `g_key_file_get_keys`: the keys of group `g` in file order, or
`G_KEY_FILE_ERROR_GROUP_NOT_FOUND`. -/
def g_key_file_get_keys (kf : GKeyFile) (g : String) : Except GErr (List String) :=
  match findGroup kf g with
  | none => .error .groupNotFound
  | some grp => .ok (grp.map Prod.fst)

/-- `get_ini_location`: fails when `secure_getenv("HOME")` is NULL, otherwise
produces `$HOME/passwords.ini`.  (The `asprintf` allocation failure branch is
not modelled.) -/
def get_ini_location (home : Option String) : Except GErr String :=
  match home with
  | none => .error .homeNotSet
  | some h => .ok (h ++ "/passwords.ini")

/-- `open_ini_file`: calls `get_ini_location` but IGNORES its result, then
loads the key file from `ini_path`.  If HOME is unset, `ini_path` is an
uninitialized pointer and the subsequent load and `g_autofree` are undefined
behaviour, modelled as the `ubUninitPath` error.  An absent file yields
`G_FILE_ERROR_NOENT` (returned FALSE with the error left in `*error`; the
warning is merely suppressed for NOENT). -/
def open_ini_file (home : Option String) (file : Option GKeyFile) :
    Except GErr GKeyFile :=
  match home with
  | none => .error .ubUninitPath
  | some _ =>
    match file with
    | none => .error .fileNoent
    | some kf => .ok kf

/-- The five variadic slots that `label_from_va_args` reads: the literal
marker `"service"`, the service name, the literal marker `"account"`, the
account name, and the terminating NULL. -/
structure VaArgs where
  expectService : String
  service : String
  expectAccount : String
  account : String
  lastNull : Bool
  deriving DecidableEq, Repr

/-- The variadic arguments of a well-formed call, as keytar produces them. -/
def wellFormedArgs (s a : String) : VaArgs :=
  ⟨"service", s, "account", a, true⟩

/-- `label_from_va_args`: validates the marker strings and the terminating
NULL, and extracts the service and account names. -/
def label_from_va_args (args : VaArgs) : Except GErr (String × String) :=
  if args.expectService ≠ "service" then .error .badFirstParam
  else if args.expectAccount ≠ "account" then .error .badThirdParam
  else if args.lastNull = false then .error .badLastParam
  else .ok (args.service, args.account)

/-- Result of a mutating call: the `gboolean` return value, the caller's
`GError **` out parameter after the call, and the file contents after the
call. -/
structure MutResult where
  ok : Bool
  err : Option GErr
  file : Option GKeyFile
  deriving DecidableEq, Repr

/-- `secret_password_store_sync`: resolve the path, load the file (an absent
file is a failure: the NOENT branch only suppresses the warning, the function
still returns FALSE), read the variadic arguments, set the
`[service] account = password` entry, save. -/
def secret_password_store_sync (home : Option String) (file : Option GKeyFile)
    (password : String) (args : VaArgs) : MutResult :=
  match get_ini_location home with
  | .error e => ⟨false, some e, file⟩
  | .ok _ =>
    match file with
    | none => ⟨false, some .fileNoent, file⟩
    | some kf =>
      match label_from_va_args args with
      | .error e => ⟨false, some e, file⟩
      | .ok (service, account) =>
        ⟨true, none, some (g_key_file_set_string kf service account password)⟩

/-- `secret_password_lookup_sync`: resolve the path, read the variadic
arguments, open the file, get the string.  On a NULL result the error is left
in `*error` whether or not it is `KEY_NOT_FOUND` (that distinction only
controls the warning). -/
def secret_password_lookup_sync (home : Option String) (file : Option GKeyFile)
    (args : VaArgs) : Option String × Option GErr :=
  match get_ini_location home with
  | .error e => (none, some e)
  | .ok _ =>
    match label_from_va_args args with
    | .error e => (none, some e)
    | .ok (service, account) =>
      match open_ini_file home file with
      | .error e => (none, some e)
      | .ok kf =>
        match g_key_file_get_string kf service account with
        | .error e => (none, some e)
        | .ok v => (some v, none)

/-- `secret_password_clear_sync`: read the variadic arguments, open the file
(note: no direct `get_ini_location` check first), remove the key (a failed
removal returns FALSE without saving), then resolve the path and save. -/
def secret_password_clear_sync (home : Option String) (file : Option GKeyFile)
    (args : VaArgs) : MutResult :=
  match label_from_va_args args with
  | .error e => ⟨false, some e, file⟩
  | .ok (service, account) =>
    match open_ini_file home file with
    | .error e => ⟨false, some e, file⟩
    | .ok kf =>
      match g_key_file_remove_key kf service account with
      | .error e => ⟨false, some e, file⟩
      | .ok kf' =>
        match get_ini_location home with
        | .error e => ⟨false, some e, file⟩
        | .ok _ => ⟨true, none, some kf'⟩

/-- The loop of `secret_service_search_sync`: for each key, get its string and
collect the (account, password) item; `assert(password != NULL)` aborting the
process is modelled as `none`. -/
def searchLoop (kf : GKeyFile) (s : String) : List String → Option (List (String × String))
  | [] => some []
  | k :: rest =>
    match g_key_file_get_string kf s k with
    | .error _ => none
    | .ok v => (searchLoop kf s rest).map (fun l => (k, v) :: l)

/-- Caller-visible outcome of `secret_service_search_sync`: a `GList` of
(account, password) items with `*error` clear (NULL `GList` = empty list), or
NULL with `*error` set, or an `assert` abort. -/
inductive SearchResult where
  | items (l : List (String × String))
  | err (e : GErr)
  | abort
  deriving DecidableEq, Repr

/-- `secret_service_search_sync`: check the flags, find the service name in
the attributes table, open the file, list the keys of the service's group
(`GROUP_NOT_FOUND` is cleared and yields the empty list), and collect one
(account, password) item per key.  `flagsOk` stands for `flags ==
(SECRET_SEARCH_ALL | SECRET_SEARCH_UNLOCK | SECRET_SEARCH_LOAD_SECRETS)`;
`serviceName` is the result of the `g_hash_table_find` for `"service"`. -/
def secret_service_search_sync (home : Option String) (file : Option GKeyFile)
    (flagsOk : Bool) (serviceName : Option String) : SearchResult :=
  if flagsOk = false then .err .badFlags
  else
    match serviceName with
    | none => .err .noServiceName
    | some s =>
      match open_ini_file home file with
      | .error e => .err e
      | .ok kf =>
        match g_key_file_get_keys kf s with
        | .error .groupNotFound => .items []
        | .error e => .err e
        | .ok keys =>
          match searchLoop kf s keys with
          | none => .abort
          | some l => .items l

/-- Whether `(service, account)` has an entry in the key file. -/
def hasEntry (kf : GKeyFile) (s a : String) : Bool :=
  match findGroup kf s with
  | none => false
  | some grp => (findKey grp a).isSome

/-- The entries of service `s` in the (possibly absent) file, `none` when the
file or the section is absent. -/
def serviceEntries (file : Option GKeyFile) (s : String) : Option GKeyGroup :=
  match file with
  | none => none
  | some kf => findGroup kf s

/-- `S_IRUSR`: owner read permission bit. -/
def S_IRUSR : Nat := 0o400

/-- `S_IWUSR`: owner write permission bit. -/
def S_IWUSR : Nat := 0o200

/-- `S_IRGRP`: group read permission bit. -/
def S_IRGRP : Nat := 0o040

/-- The mode `init` passes to `g_open` with `O_CREAT`. -/
def init_mode : Nat := S_IRUSR ||| S_IWUSR ||| S_IRGRP

/-- Effect of `g_open(path, O_CREAT, mode)` on the file: created empty with
the requested mode bits if absent, untouched otherwise.  The file is a pair of
parsed contents and mode bits. -/
def g_open_creat (file : Option (GKeyFile × Nat)) (mode : Nat) : GKeyFile × Nat :=
  match file with
  | none => ([], mode)
  | some f => f

/-- The library constructor `init` (with HOME set): ensure `passwords.ini`
exists by `g_open(ini_path, O_CREAT, S_IRUSR | S_IWUSR | S_IRGRP)`. -/
def init (file : Option (GKeyFile × Nat)) : GKeyFile × Nat :=
  g_open_creat file init_mode

example : label_from_va_args (wellFormedArgs "s" "a") = .ok ("s", "a") := rfl

example :
    secret_password_store_sync (some "/home/u") (some []) "v" (wellFormedArgs "s" "a") =
      ⟨true, none, some [("s", [("a", "v")])]⟩ := by decide

/-! ## Helper lemmas about the embedded GKeyFile operations -/

theorem label_wellFormed (s a : String) :
    label_from_va_args (wellFormedArgs s a) = .ok (s, a) := rfl

theorem findKey_setKeyInGroup_self (grp : GKeyGroup) (k v : String) :
    findKey (setKeyInGroup grp k v) k = some v := by
  induction grp with
  | nil => simp [setKeyInGroup, findKey]
  | cons p rest ih =>
    obtain ⟨n, w⟩ := p
    by_cases h : n = k
    · subst h
      simp [setKeyInGroup, findKey]
    · simp [setKeyInGroup, findKey, h, ih]

theorem findGroup_set_string_self (kf : GKeyFile) (g k v : String) :
    ∃ grp, findGroup (g_key_file_set_string kf g k v) g = some grp ∧
      findKey grp k = some v := by
  induction kf with
  | nil =>
    exact ⟨[(k, v)], by simp [g_key_file_set_string, findGroup], by simp [findKey]⟩
  | cons p rest ih =>
    obtain ⟨n, grp⟩ := p
    by_cases h : n = g
    · subst h
      exact ⟨setKeyInGroup grp k v, by simp [g_key_file_set_string, findGroup],
        findKey_setKeyInGroup_self grp k v⟩
    · obtain ⟨grp', h1, h2⟩ := ih
      exact ⟨grp', by simp [g_key_file_set_string, findGroup, h, h1], h2⟩

theorem get_string_set_string_self (kf : GKeyFile) (g k v : String) :
    g_key_file_get_string (g_key_file_set_string kf g k v) g k = .ok v := by
  obtain ⟨grp, h1, h2⟩ := findGroup_set_string_self kf g k v
  simp [g_key_file_get_string, h1, h2]

theorem findGroup_set_string_ne (kf : GKeyFile) (g k v s : String) (h : s ≠ g) :
    findGroup (g_key_file_set_string kf g k v) s = findGroup kf s := by
  have h' : ¬ (g = s) := fun hh => h hh.symm
  induction kf with
  | nil => simp [g_key_file_set_string, findGroup, h']
  | cons p rest ih =>
    obtain ⟨n, grp⟩ := p
    by_cases hn : n = g
    · subst hn
      simp [g_key_file_set_string, findGroup, h']
    · by_cases hs : n = s
      · simp [g_key_file_set_string, findGroup, hn, hs, h]
      · simp [g_key_file_set_string, findGroup, hn, hs, ih]

theorem findGroup_remove_key_ne (kf : GKeyFile) (g k s : String) (h : s ≠ g) :
    ∀ kf', g_key_file_remove_key kf g k = .ok kf' →
      findGroup kf' s = findGroup kf s := by
  have h' : ¬ (g = s) := fun hh => h hh.symm
  induction kf with
  | nil => intro kf' hrem; simp [g_key_file_remove_key] at hrem
  | cons p rest ih =>
    intro kf' hrem
    obtain ⟨n, grp⟩ := p
    by_cases hn : n = g
    · subst hn
      cases hfk : findKey grp k with
      | none => simp [g_key_file_remove_key, hfk] at hrem
      | some w =>
        simp [g_key_file_remove_key, hfk] at hrem
        subst hrem
        simp [findGroup, h']
    · cases hrec : g_key_file_remove_key rest g k with
      | error e => simp [g_key_file_remove_key, hn, hrec] at hrem
      | ok rest' =>
        simp [g_key_file_remove_key, hn, hrec] at hrem
        subst hrem
        by_cases hs : n = s
        · simp [findGroup, hs]
        · simp [findGroup, hs, ih rest' hrec]

theorem hasEntry_cons (n : String) (grp : GKeyGroup) (rest : GKeyFile) (s a : String) :
    hasEntry ((n, grp) :: rest) s a =
      if n = s then (findKey grp a).isSome else hasEntry rest s a := by
  by_cases h : n = s <;> simp [hasEntry, findGroup, h]

theorem remove_key_not_found (kf : GKeyFile) (s a : String)
    (h : hasEntry kf s a = false) :
    ∃ e, g_key_file_remove_key kf s a = .error e ∧ e.isNotFound = true := by
  induction kf with
  | nil => exact ⟨.groupNotFound, rfl, rfl⟩
  | cons p rest ih =>
    obtain ⟨n, grp⟩ := p
    by_cases hn : n = s
    · subst hn
      rw [hasEntry_cons, if_pos rfl] at h
      have hfk : findKey grp a = none := by
        cases hfk : findKey grp a with
        | none => rfl
        | some w => rw [hfk] at h; simp at h
      exact ⟨.keyNotFound, by simp [g_key_file_remove_key, hfk], rfl⟩
    · have h' : hasEntry rest s a = false := by
        rwa [hasEntry_cons, if_neg hn] at h
      obtain ⟨e, he, hnf⟩ := ih h'
      exact ⟨e, by simp [g_key_file_remove_key, hn, he], hnf⟩

theorem findKey_mem_keys (grp : GKeyGroup) (a v : String)
    (h : findKey grp a = some v) : a ∈ grp.map Prod.fst := by
  induction grp with
  | nil => simp [findKey] at h
  | cons p rest ih =>
    obtain ⟨n, w⟩ := p
    by_cases hn : n = a
    · simp [hn]
    · rw [findKey, if_neg hn] at h
      simp [ih h]

theorem keys_findKey_isSome (grp : GKeyGroup) (a : String)
    (h : a ∈ grp.map Prod.fst) : (findKey grp a).isSome = true := by
  induction grp with
  | nil => simp at h
  | cons p rest ih =>
    obtain ⟨n, w⟩ := p
    by_cases hn : n = a
    · simp [findKey, hn]
    · rw [findKey, if_neg hn]
      rcases List.mem_cons.mp h with heq | hmem
      · exact absurd heq.symm hn
      · exact ih hmem

theorem get_string_eq_ok_iff (kf : GKeyFile) (grp : GKeyGroup) (s a v : String)
    (hg : findGroup kf s = some grp) :
    g_key_file_get_string kf s a = .ok v ↔ findKey grp a = some v := by
  cases hfk : findKey grp a with
  | none => simp [g_key_file_get_string, hg, hfk]
  | some w => simp [g_key_file_get_string, hg, hfk]

theorem setKeyInGroup_idem (grp : GKeyGroup) (k v : String) :
    setKeyInGroup (setKeyInGroup grp k v) k v = setKeyInGroup grp k v := by
  induction grp with
  | nil => simp [setKeyInGroup]
  | cons p rest ih =>
    obtain ⟨n, w⟩ := p
    by_cases h : n = k
    · subst h
      simp [setKeyInGroup]
    · simp [setKeyInGroup, h, ih]

theorem set_string_idem (kf : GKeyFile) (g k v : String) :
    g_key_file_set_string (g_key_file_set_string kf g k v) g k v =
      g_key_file_set_string kf g k v := by
  induction kf with
  | nil => simp [g_key_file_set_string, setKeyInGroup]
  | cons p rest ih =>
    obtain ⟨n, grp⟩ := p
    by_cases h : n = g
    · subst h
      simp [g_key_file_set_string, setKeyInGroup_idem]
    · simp [g_key_file_set_string, h, ih]

theorem searchLoop_spec (kf : GKeyFile) (s : String) (grp : GKeyGroup)
    (hg : findGroup kf s = some grp) :
    ∀ ks : List String, (∀ k ∈ ks, (findKey grp k).isSome = true) →
      ∃ items, searchLoop kf s ks = some items ∧
        ∀ a v, ((a, v) ∈ items ↔ (a ∈ ks ∧ findKey grp a = some v)) := by
  intro ks
  induction ks with
  | nil => exact fun _ => ⟨[], rfl, by simp⟩
  | cons k rest ih =>
    intro hks
    have hk : (findKey grp k).isSome = true := hks k (List.mem_cons_self k rest)
    obtain ⟨w, hw⟩ := Option.isSome_iff_exists.mp hk
    obtain ⟨items', h1, h2⟩ := ih (fun k' hk' => hks k' (List.mem_cons_of_mem _ hk'))
    refine ⟨(k, w) :: items', ?_, ?_⟩
    · simp [searchLoop, g_key_file_get_string, hg, hw, h1]
    · intro a v
      simp only [List.mem_cons, h2, Prod.mk.injEq]
      constructor
      · rintro (⟨rfl, rfl⟩ | ⟨hmem, hfk⟩)
        · exact ⟨Or.inl rfl, hw⟩
        · exact ⟨Or.inr hmem, hfk⟩
      · rintro ⟨(rfl | hmem), hfk⟩
        · rw [hw] at hfk
          exact Or.inl ⟨rfl, (Option.some.injEq _ _ ▸ hfk).symm⟩
        · exact Or.inr ⟨hmem, hfk⟩

/-! ## Claim theorems -/

/-- Claim C1: for all valid strings s, a, v, a successful store of (s, a, v)
followed by a lookup of (s, a), with no intervening operation, returns the
secret v. -/
theorem C1_store_then_lookup_roundtrip (home : Option String) (file : Option GKeyFile)
    (s a v : String)
    (hok : (secret_password_store_sync home file v (wellFormedArgs s a)).ok = true) :
    secret_password_lookup_sync home
      (secret_password_store_sync home file v (wellFormedArgs s a)).file
      (wellFormedArgs s a) = (some v, none) := by
  cases home with
  | none => simp [secret_password_store_sync, get_ini_location] at hok
  | some h =>
    cases file with
    | none => simp [secret_password_store_sync, get_ini_location] at hok
    | some kf =>
      simp [secret_password_store_sync, get_ini_location, label_wellFormed,
        secret_password_lookup_sync, open_ini_file, get_string_set_string_self]

/-- Witness for C1 at a concrete input. -/
theorem C1_witness :
    (secret_password_store_sync (some "/home/u") (some []) "v"
        (wellFormedArgs "s" "a")).ok = true ∧
    secret_password_lookup_sync (some "/home/u")
      (secret_password_store_sync (some "/home/u") (some []) "v"
        (wellFormedArgs "s" "a")).file
      (wellFormedArgs "s" "a") = (some "v", none) :=
  ⟨by decide,
    C1_store_then_lookup_roundtrip (some "/home/u") (some []) "s" "a" "v" (by decide)⟩

/-- Claim C2 counterexample: with HOME set and the credential file absent,
store does NOT treat the store as empty and succeed; it returns FALSE and
writes nothing (the NOENT branch of the load only suppresses the warning). -/
theorem C2_counterexample :
    ¬ ((secret_password_store_sync (some "/home/user") none "v"
          (wellFormedArgs "s" "a")).ok = true ∧
       (secret_password_store_sync (some "/home/user") none "v"
          (wellFormedArgs "s" "a")).file = some [("s", [("a", "v")])]) := by
  decide

/-- Claim C2 amended: when the backing credential file is absent, store fails,
returning FALSE with the file-not-found error in the error out-parameter, and
does not create or write the file. -/
theorem C2_store_absent_file_fails (h v s a : String) :
    secret_password_store_sync (some h) none v (wellFormedArgs s a) =
      ⟨false, some .fileNoent, none⟩ := rfl

/-- Claim C3 counterexample: lookup with the backing file absent returns a
null secret but leaves the file-not-found error in the error out-parameter,
so the result is not an error-free NotFound. -/
theorem C3_counterexample :
    secret_password_lookup_sync (some "/home/user") none (wellFormedArgs "s" "a") =
      (none, some .fileNoent) ∧
    (secret_password_lookup_sync (some "/home/user") none (wellFormedArgs "s" "a")).2 ≠
      none := by
  decide

/-- Claim C3 amended: lookup performed when the backing credential file does
not exist returns a null secret (the NotFound return value) with the
file-not-found error left populated in the error out-parameter. -/
theorem C3_lookup_absent_file (h s a : String) :
    secret_password_lookup_sync (some h) none (wellFormedArgs s a) =
      (none, some .fileNoent) := rfl

/-- Claim C4: for every (service, account) not present in the store, clear
returns FALSE with a not-found error and the file content is left unchanged
(no rewrite happens). -/
theorem C4_clear_missing_key (h : String) (kf : GKeyFile) (s a : String)
    (hne : hasEntry kf s a = false) :
    (secret_password_clear_sync (some h) (some kf) (wellFormedArgs s a)).ok = false ∧
    (∃ e, (secret_password_clear_sync (some h) (some kf) (wellFormedArgs s a)).err =
        some e ∧ e.isNotFound = true) ∧
    (secret_password_clear_sync (some h) (some kf) (wellFormedArgs s a)).file =
      some kf := by
  obtain ⟨e, he, hnf⟩ := remove_key_not_found kf s a hne
  refine ⟨?_, ⟨e, ?_, hnf⟩, ?_⟩ <;>
    simp [secret_password_clear_sync, label_wellFormed, open_ini_file, he]

/-- Witness for C4 at a concrete input. -/
theorem C4_witness :
    hasEntry [("x", [("y", "z")])] "s" "a" = false ∧
    ((secret_password_clear_sync (some "/home/u") (some [("x", [("y", "z")])])
        (wellFormedArgs "s" "a")).ok = false ∧
     (∃ e, (secret_password_clear_sync (some "/home/u") (some [("x", [("y", "z")])])
        (wellFormedArgs "s" "a")).err = some e ∧ e.isNotFound = true) ∧
     (secret_password_clear_sync (some "/home/u") (some [("x", [("y", "z")])])
        (wellFormedArgs "s" "a")).file = some [("x", [("y", "z")])]) :=
  ⟨by decide, C4_clear_missing_key "/home/u" [("x", [("y", "z")])] "s" "a" (by decide)⟩

/-- Claim C5: any store or clear call targeting service s leaves the entries
of every other service s' as they were before the operation (on success and on
every failure path alike). -/
theorem C5_frame (home : Option String) (file : Option GKeyFile)
    (v s a s' : String) (h : s' ≠ s) :
    serviceEntries (secret_password_store_sync home file v (wellFormedArgs s a)).file s' =
        serviceEntries file s' ∧
      serviceEntries (secret_password_clear_sync home file (wellFormedArgs s a)).file s' =
        serviceEntries file s' := by
  constructor
  · cases home with
    | none => rfl
    | some hh =>
      cases file with
      | none => rfl
      | some kf =>
        simp [secret_password_store_sync, get_ini_location, label_wellFormed,
          serviceEntries, findGroup_set_string_ne kf s a v s' h]
  · cases home with
    | none => rfl
    | some hh =>
      cases file with
      | none => rfl
      | some kf =>
        cases hrem : g_key_file_remove_key kf s a with
        | error e =>
          simp [secret_password_clear_sync, label_wellFormed, open_ini_file, hrem]
        | ok kf' =>
          simp [secret_password_clear_sync, get_ini_location, label_wellFormed,
            open_ini_file, hrem, serviceEntries,
            findGroup_remove_key_ne kf s a s' h kf' hrem]

/-- Witness for C5 at a concrete input. -/
theorem C5_witness :
    ("other" : String) ≠ "s" ∧
    (serviceEntries (secret_password_store_sync (some "/home/u")
        (some [("other", [("b", "w")])]) "v" (wellFormedArgs "s" "a")).file "other" =
          serviceEntries (some [("other", [("b", "w")])]) "other" ∧
      serviceEntries (secret_password_clear_sync (some "/home/u")
        (some [("other", [("b", "w")])]) (wellFormedArgs "s" "a")).file "other" =
          serviceEntries (some [("other", [("b", "w")])]) "other") :=
  ⟨by decide, C5_frame (some "/home/u") (some [("other", [("b", "w")])]) "v" "s" "a"
    "other" (by decide)⟩

/-- Claim C6 counterexample: when the backing file is absent, service "s" has
no entries, yet search does not return an empty sequence with no error: it
returns NULL with the file-not-found error set in the error out-parameter. -/
theorem C6_counterexample :
    secret_service_search_sync (some "/home/user") none true (some "s") =
      .err .fileNoent ∧
    secret_service_search_sync (some "/home/user") none true (some "s") ≠
      .items [] := by
  decide

/-- Claim C6 amended: with the backing file present, search(s) succeeds with
the error clear and returns an item (a, v) exactly when the store maps (s, a)
to v (so a service with no section yields the empty list and no error); but
when the backing file is absent, search returns NULL with the file-not-found
error in the error out-parameter instead of an empty sequence. -/
theorem C6_search_amended (h : String) (kf : GKeyFile) (s : String) :
    (∃ items, secret_service_search_sync (some h) (some kf) true (some s) =
        .items items ∧
      ∀ a v, ((a, v) ∈ items ↔ g_key_file_get_string kf s a = .ok v)) ∧
    secret_service_search_sync (some h) none true (some s) = .err .fileNoent := by
  constructor
  · cases hg : findGroup kf s with
    | none =>
      refine ⟨[], ?_, ?_⟩
      · simp [secret_service_search_sync, open_ini_file, g_key_file_get_keys, hg]
      · intro a v
        simp [g_key_file_get_string, hg]
    | some grp =>
      obtain ⟨items, h1, h2⟩ := searchLoop_spec kf s grp hg (grp.map Prod.fst)
        (fun k hk => keys_findKey_isSome grp k hk)
      refine ⟨items, ?_, ?_⟩
      · simp [secret_service_search_sync, open_ini_file, g_key_file_get_keys, hg, h1]
      · intro a v
        rw [h2 a v, get_string_eq_ok_iff kf grp s a v hg]
        constructor
        · rintro ⟨_, hfk⟩
          exact hfk
        · intro hfk
          exact ⟨findKey_mem_keys grp a v hfk, hfk⟩
  · rfl

/-- Claim C7: applying store(s, a, v) twice in succession yields the same
on-disk content as applying it once. -/
theorem C7_store_idempotent (home : Option String) (file : Option GKeyFile)
    (s a v : String) :
    (secret_password_store_sync home
        (secret_password_store_sync home file v (wellFormedArgs s a)).file v
        (wellFormedArgs s a)).file =
      (secret_password_store_sync home file v (wellFormedArgs s a)).file := by
  cases home with
  | none => rfl
  | some h =>
    cases file with
    | none => rfl
    | some kf =>
      simp [secret_password_store_sync, get_ini_location, label_wellFormed,
        set_string_idem]

/-- Claim C8: with HOME unset, store and lookup do fail cleanly with the
configuration error and leave the file untouched, but clear and search never
produce that error: open_ini_file ignores the failed get_ini_location and goes
on to use the uninitialized path (undefined behaviour), which is the code bug
this theorem exhibits. -/
theorem C8_home_unset :
    (secret_password_store_sync none (some [("s", [("a", "v")])]) "w"
        (wellFormedArgs "s" "a") =
      ⟨false, some .homeNotSet, some [("s", [("a", "v")])]⟩) ∧
    (secret_password_lookup_sync none (some [("s", [("a", "v")])])
        (wellFormedArgs "s" "a") = (none, some .homeNotSet)) ∧
    (secret_password_clear_sync none (some [("s", [("a", "v")])])
        (wellFormedArgs "s" "a") =
      ⟨false, some .ubUninitPath, some [("s", [("a", "v")])]⟩) ∧
    (secret_password_clear_sync none (some [("s", [("a", "v")])])
        (wellFormedArgs "s" "a")).err ≠ some .homeNotSet ∧
    secret_service_search_sync none (some [("s", [("a", "v")])]) true (some "s") =
      .err .ubUninitPath := by
  decide

/-- Claim C9 counterexample: the mode init passes to g_open includes the
group-read bit S_IRGRP, so permission bits beyond owner read and owner write
ARE requested at creation. -/
theorem C9_counterexample :
    (init none).2 &&& S_IRGRP ≠ 0 ∧ (init none).2 ≠ (S_IRUSR ||| S_IWUSR) := by
  decide

/-- Claim C9 amended: when the credential file is absent at initialization it
is created empty, with owner read, owner write and group read requested
(mode 0o640); an existing file is left untouched. -/
theorem C9_init_mode (f : GKeyFile × Nat) :
    init none = ([], 0o640) ∧ 0o640 = S_IRUSR ||| S_IWUSR ||| S_IRGRP ∧
      init (some f) = f :=
  ⟨by decide, by decide, rfl⟩

/-- Claim C10: when lookup finds the file and the service section but not the
account, it returns a null secret while the error out-parameter stays
populated with the key-not-found error, so an error-inspecting caller sees
this NotFound as an error. -/
theorem C10_lookup_key_not_found (h : String) (kf : GKeyFile) (grp : GKeyGroup)
    (s a : String) (hg : findGroup kf s = some grp) (hk : findKey grp a = none) :
    secret_password_lookup_sync (some h) (some kf) (wellFormedArgs s a) =
      (none, some .keyNotFound) := by
  simp [secret_password_lookup_sync, get_ini_location, label_wellFormed,
    open_ini_file, g_key_file_get_string, hg, hk]

/-- Witness for C10 at a concrete input. -/
theorem C10_witness :
    findGroup [("s", [("b", "w")])] "s" = some [("b", "w")] ∧
    findKey [("b", "w")] "a" = none ∧
    secret_password_lookup_sync (some "/home/u") (some [("s", [("b", "w")])])
      (wellFormedArgs "s" "a") = (none, some .keyNotFound) :=
  ⟨by decide, by decide,
    C10_lookup_key_not_found "/home/u" [("s", [("b", "w")])] [("b", "w")] "s" "a"
      (by decide) (by decide)⟩
